import Mathlib

/-!
Verification of the scrcpy 1.16 options module of ya-webadb
(src/libraries/scrcpy/src/options/1_16/index.ts) and of the
subprocess-protocol selection logic (src/unnamed/part_000).

JavaScript numbers on the integer-valued option fields are modelled as
`Int`; byte buffers (`Uint8Array`) as `List Nat`; `undefined`-able values
as `Option`; JS truthiness (the `||` operator) is modelled per value type.
-/

/-- Enum `ScrcpyLogLevel` (a string enum in the source). -/
inductive ScrcpyLogLevel
  | verbose
  | debug
  | info
  | warn
  | error
deriving DecidableEq, Repr

/-- The wire string of each `ScrcpyLogLevel` member, as in the source enum. -/
def ScrcpyLogLevel.toWire : ScrcpyLogLevel → String
  | .verbose => "verbose"
  | .debug => "debug"
  | .info => "info"
  | .warn => "warn"
  | .error => "error"

/-- Enum `ScrcpyScreenOrientation` (a numeric enum in the source). -/
inductive ScrcpyScreenOrientation
  | initial
  | unlocked
  | portrait
  | landscape
  | portraitFlipped
  | landscapeFlipped
deriving DecidableEq, Repr

/-- The numeric value of each `ScrcpyScreenOrientation` member:
Initial = -2, Unlocked = -1, Portrait = 0, Landscape = 1,
PortraitFlipped = 2, LandscapeFlipped = 3. -/
def ScrcpyScreenOrientation.toInt : ScrcpyScreenOrientation → Int
  | .initial => -2
  | .unlocked => -1
  | .portrait => 0
  | .landscape => 1
  | .portraitFlipped => 2
  | .landscapeFlipped => 3

/-- `Partial<CodecOptionsInit>`: the `value` stored inside a `CodecOptions`
instance; both fields may be absent. -/
structure CodecOptionsValue where
  profile : Option Int
  level : Option Int
deriving DecidableEq, Repr

/-- `CodecOptions.toOptionValue`: keep the entries whose value is defined
(in insertion order `profile`, `level`), return `undefined` (`none`) when no
entry remains, otherwise join the `key=value` renderings with commas. -/
def CodecOptions.toOptionValue (c : CodecOptionsValue) : Option String :=
  let entries : List (String × Int) :=
    (match c.profile with
     | some p => [("profile", p)]
     | none => []) ++
    (match c.level with
     | some l => [("level", l)]
     | none => [])
  match entries with
  | [] => none
  | _ => some (String.intercalate "," (entries.map (fun e => e.1 ++ "=" ++ toString e.2)))

/-- The full option record `ScrcpyOptionsInit1_16` (every field present);
this is the shape returned by `getDefaultValue`. -/
structure ScrcpyOptionsInit1_16 where
  logLevel : ScrcpyLogLevel
  maxSize : Int
  bitRate : Int
  maxFps : Int
  lockVideoOrientation : ScrcpyScreenOrientation
  tunnelForward : Bool
  crop : String
  sendFrameMeta : Bool
  control : Bool
  displayId : Int
  showTouches : Bool
  stayAwake : Bool
  codecOptions : CodecOptionsValue
  encoderName : String
deriving DecidableEq, Repr

/-- `Partial<ScrcpyOptionsInit1_16>`: the `value` field stored by a
`ScrcpyOptions1_16` instance; every field may be absent (`undefined`). -/
structure ScrcpyOptionsValue1_16 where
  logLevel : Option ScrcpyLogLevel
  maxSize : Option Int
  bitRate : Option Int
  maxFps : Option Int
  lockVideoOrientation : Option ScrcpyScreenOrientation
  tunnelForward : Option Bool
  crop : Option String
  sendFrameMeta : Option Bool
  control : Option Bool
  displayId : Option Int
  showTouches : Option Bool
  stayAwake : Option Bool
  codecOptions : Option CodecOptionsValue
  encoderName : Option String
deriving DecidableEq, Repr

/-- The empty user configuration `{}`: every field absent. -/
def emptyScrcpyOptionsValue : ScrcpyOptionsValue1_16 :=
  ⟨none, none, none, none, none, none, none, none, none, none, none, none, none, none⟩

/-- JS `x || d` for a possibly-`undefined` `x`: if `x` is present and truthy
(per the type-specific predicate) it is kept, otherwise `d` is used. -/
def jsOr {α : Type} (truthy : α → Bool) : Option α → α → α
  | some x, d => if truthy x then x else d
  | none, d => d

/-- `ScrcpyOptions1_16.getDefaultValue`: the version default table. -/
def ScrcpyOptions1_16.getDefaultValue : ScrcpyOptionsInit1_16 :=
  { logLevel := .debug
    maxSize := 0
    bitRate := 8000000
    maxFps := 0
    lockVideoOrientation := .unlocked
    tunnelForward := false
    crop := "-"
    sendFrameMeta := true
    control := true
    displayId := 0
    showTouches := false
    stayAwake := false
    codecOptions := ⟨none, none⟩
    encoderName := "-" }

/-- Modelled from the spec: `toScrcpyOptionValue` lives in
`options/common.ts`, which is not among the sources. Per the spec a value
is rendered per type (enum → raw value, boolean → literal token, number →
decimal string, CodecOptions → its own encoding) and the placeholder is
used for an absent (`undefined`) value. Callers below pass the already
type-rendered value as an `Option String`. -/
def toScrcpyOptionValue (v : Option String) (empty : String) : String :=
  match v with
  | some s => s
  | none => empty

/-- `ScrcpyOptions1_16.formatServerArguments`: for each key of
`getArgumentOrder` (logLevel, maxSize, bitRate, maxFps,
lockVideoOrientation, tunnelForward, crop, sendFrameMeta, control,
displayId, showTouches, stayAwake, codecOptions, encoderName) render
`toScrcpyOptionValue(this.value[key] || defaults[key], "-")`.  The `||` is
JS truthiness: a present but falsy user value (false, 0, empty string)
falls through to the default. -/
def ScrcpyOptions1_16.formatServerArguments (v : ScrcpyOptionsValue1_16) : List String :=
  let d := ScrcpyOptions1_16.getDefaultValue
  [ toScrcpyOptionValue
      (some (ScrcpyLogLevel.toWire
        (jsOr (fun l => ScrcpyLogLevel.toWire l != "") v.logLevel d.logLevel))) "-",
    toScrcpyOptionValue
      (some (toString (jsOr (fun n : Int => n != 0) v.maxSize d.maxSize))) "-",
    toScrcpyOptionValue
      (some (toString (jsOr (fun n : Int => n != 0) v.bitRate d.bitRate))) "-",
    toScrcpyOptionValue
      (some (toString (jsOr (fun n : Int => n != 0) v.maxFps d.maxFps))) "-",
    toScrcpyOptionValue
      (some (toString (ScrcpyScreenOrientation.toInt
        (jsOr (fun o => ScrcpyScreenOrientation.toInt o != 0)
          v.lockVideoOrientation d.lockVideoOrientation)))) "-",
    toScrcpyOptionValue
      (some (toString (jsOr (fun b : Bool => b) v.tunnelForward d.tunnelForward))) "-",
    toScrcpyOptionValue
      (some (jsOr (fun s : String => s != "") v.crop d.crop)) "-",
    toScrcpyOptionValue
      (some (toString (jsOr (fun b : Bool => b) v.sendFrameMeta d.sendFrameMeta))) "-",
    toScrcpyOptionValue
      (some (toString (jsOr (fun b : Bool => b) v.control d.control))) "-",
    toScrcpyOptionValue
      (some (toString (jsOr (fun n : Int => n != 0) v.displayId d.displayId))) "-",
    toScrcpyOptionValue
      (some (toString (jsOr (fun b : Bool => b) v.showTouches d.showTouches))) "-",
    toScrcpyOptionValue
      (some (toString (jsOr (fun b : Bool => b) v.stayAwake d.stayAwake))) "-",
    toScrcpyOptionValue
      (CodecOptions.toOptionValue
        (jsOr (fun _ => true) v.codecOptions d.codecOptions)) "-",
    toScrcpyOptionValue
      (some (jsOr (fun s : String => s != "") v.encoderName d.encoderName)) "-" ]

/-- The `ScrcpyOptions1_16` constructor body.  `isBase` models
`new.target === ScrcpyOptions1_16` (true exactly when the instance is
constructed as the base class, not via a subclass).  When base: a
`verbose` log level is rewritten to `debug` and an `Initial` orientation
to `Unlocked`; everything else is stored unchanged. -/
def ScrcpyOptions1_16.construct (isBase : Bool) (value : ScrcpyOptionsValue1_16) :
    ScrcpyOptionsValue1_16 :=
  let v1 :=
    if isBase ∧ value.logLevel = some ScrcpyLogLevel.verbose then
      { value with logLevel := some ScrcpyLogLevel.debug }
    else value
  if isBase ∧ v1.lockVideoOrientation = some ScrcpyScreenOrientation.initial then
    { v1 with lockVideoOrientation := some ScrcpyScreenOrientation.unlocked }
  else v1

/-- The two tunnel topologies a `ScrcpyClientConnection` can use. -/
inductive ScrcpyConnectionKind
  | forward
  | reverse
deriving DecidableEq, Repr

/-- `ScrcpyClientConnectionOptions` as passed by `createConnection`. -/
structure ScrcpyClientConnectionOptions where
  control : Bool
  sendDummyByte : Bool
  sendDeviceMeta : Bool
deriving DecidableEq, Repr

/-- `ScrcpyOptions1_16.createConnection`: always builds the options record
with all three flags true, then returns a forward connection when
`this.value.tunnelForward` is truthy and a reverse connection otherwise
(`false` and `undefined` are both falsy). -/
def ScrcpyOptions1_16.createConnection (v : ScrcpyOptionsValue1_16) :
    ScrcpyConnectionKind × ScrcpyClientConnectionOptions :=
  let options : ScrcpyClientConnectionOptions :=
    { control := true, sendDummyByte := true, sendDeviceMeta := true }
  if v.tunnelForward = some true then
    (.forward, options)
  else
    (.reverse, options)

/-- The fields of a parsed H.264 sequence parameter set that
`parseVideoStream` destructures from `parse_sequence_parameter_set`.
All are nonnegative integers read from the bitstream. -/
structure SequenceParameterSet where
  profile_idc : Nat
  constraint_set : Nat
  level_idc : Nat
  pic_width_in_mbs_minus1 : Nat
  pic_height_in_map_units_minus1 : Nat
  frame_mbs_only_flag : Nat
  frame_crop_left_offset : Nat
  frame_crop_right_offset : Nat
  frame_crop_top_offset : Nat
  frame_crop_bottom_offset : Nat
deriving DecidableEq, Repr

/-- The payload of a `configuration` video stream event. -/
structure VideoStreamConfiguration where
  profileIndex : Nat
  constraintSet : Nat
  levelIndex : Nat
  encodedWidth : Int
  encodedHeight : Int
  cropLeft : Int
  cropRight : Int
  cropTop : Int
  cropBottom : Int
  croppedWidth : Int
  croppedHeight : Int
deriving DecidableEq, Repr

/-- The geometry derivation of `parseVideoStream` (lines 251-277):
encodedWidth = (pic_width_in_mbs_minus1+1)*16,
encodedHeight = (pic_height_in_map_units_minus1+1)*(2-frame_mbs_only_flag)*16,
each crop offset doubled, cropped sizes = encoded minus the crops. -/
def deriveConfiguration (s : SequenceParameterSet) : VideoStreamConfiguration :=
  let encodedWidth : Int := ((s.pic_width_in_mbs_minus1 : Int) + 1) * 16
  let encodedHeight : Int :=
    ((s.pic_height_in_map_units_minus1 : Int) + 1) * (2 - (s.frame_mbs_only_flag : Int)) * 16
  let cropLeft : Int := (s.frame_crop_left_offset : Int) * 2
  let cropRight : Int := (s.frame_crop_right_offset : Int) * 2
  let cropTop : Int := (s.frame_crop_top_offset : Int) * 2
  let cropBottom : Int := (s.frame_crop_bottom_offset : Int) * 2
  { profileIndex := s.profile_idc
    constraintSet := s.constraint_set
    levelIndex := s.level_idc
    encodedWidth := encodedWidth
    encodedHeight := encodedHeight
    cropLeft := cropLeft
    cropRight := cropRight
    cropTop := cropTop
    cropBottom := cropBottom
    croppedWidth := encodedWidth - cropLeft - cropRight
    croppedHeight := encodedHeight - cropTop - cropBottom }

/-- One deserialized `VideoPacket` record: `pts` is the signed 64-bit
timestamp, `data` the `size`-byte payload. -/
structure VideoPacketRecord where
  pts : Int
  data : List Nat
deriving DecidableEq, Repr

/-- The sentinel `NoPts = BigInt(-1)` marking a parameter-set packet. -/
def NoPts : Int := -1

/-- A `VideoStreamPacket` event: either a codec configuration or a frame. -/
inductive VideoStreamPacket
  | configuration (data : VideoStreamConfiguration)
  | frame (data : List Nat)
deriving DecidableEq, Repr

/-- One metadata-mode pull after a record deserialized successfully
(`parseVideoStream`, lines 234-294), parameterised by the parameter-set
parser `sps` (`parse_sequence_parameter_set` lives in `sps.ts`, outside
the given sources).  Input: the current `header` state and the packet;
output: the new `header` state and the list of events enqueued.
If `pts = NoPts`: emit the configuration, store the raw data as header,
emit no frame.  Otherwise: with a stored header, emit one frame of
header ++ data and clear the header; with no header, emit the data
unmodified. -/
def metadataPull (sps : List Nat → SequenceParameterSet)
    (header : Option (List Nat)) (p : VideoPacketRecord) :
    Option (List Nat) × List VideoStreamPacket :=
  if p.pts = NoPts then
    (some p.data, [.configuration (deriveConfiguration (sps p.data))])
  else
    match header with
    | some h => (none, [.frame (h ++ p.data)])
    | none => (none, [.frame p.data])

/-- Outcome of `VideoPacket.deserialize(stream)` inside one pull: a full
record, a `BufferedStreamEndedError` (the source closed at a record
boundary or mid-record), or any other thrown error. -/
inductive VideoPacketDeserializeResult
  | ok (p : VideoPacketRecord)
  | streamEnded
  | otherError
deriving DecidableEq, Repr

/-- Observable outcome of one pull of the metadata-mode stream: events
enqueued (with the new header state), a clean close of the controller, or
an error surfaced to the consumer (rethrown). -/
inductive VideoStreamPullResult
  | events (header : Option (List Nat)) (emitted : List VideoStreamPacket)
  | closed
  | errored
deriving DecidableEq, Repr

/-- One full metadata-mode pull (`parseVideoStream`, lines 232-303)
including the try/catch: a deserialized record is processed by
`metadataPull`; a `BufferedStreamEndedError` closes the controller and
emits nothing; any other error is rethrown. -/
def videoStreamPull (sps : List Nat → SequenceParameterSet)
    (header : Option (List Nat)) :
    VideoPacketDeserializeResult → VideoStreamPullResult
  | .ok p =>
    let r := metadataPull sps header p
    .events r.1 r.2
  | .streamEnded => .closed
  | .otherError => .errored

/-- The two modes of `parseVideoStream`. -/
inductive VideoStreamMode
  | passThrough
  | metadata
deriving DecidableEq, Repr

/-- Mode selection of `parseVideoStream` (line 216): the pass-through
path is taken only when `this.value.sendFrameMeta === false` (strict
equality, so an absent value selects the metadata state machine). -/
def parseVideoStreamMode (v : ScrcpyOptionsValue1_16) : VideoStreamMode :=
  if v.sendFrameMeta = some false then .passThrough else .metadata

/-- The pass-through transform (lines 219-226): each source chunk is
wrapped verbatim as a frame event. -/
def passThroughTransform (chunk : List Nat) : List VideoStreamPacket :=
  [.frame chunk]

/-- `AndroidKeyEventAction` as used by the back/screen-on message; only
the key-down / key-up distinction is observed by this module. -/
inductive AndroidKeyEventAction
  | down
  | up
deriving DecidableEq, Repr

/-- A back/screen-on control message as received by
`serializeBackOrScreenOnControlMessage`: the type discriminant plus the
key action (the 1.18 message shape; the 1.16 struct serializes only
`type`). -/
structure ScrcpyBackOrScreenOnEvent where
  type : Nat
  action : AndroidKeyEventAction
deriving DecidableEq, Repr

/-- Serialization of the `ScrcpyBackOrScreenOnEvent1_16` struct: a single
`uint8` field `type`, so one byte equal to the type discriminant. -/
def ScrcpyBackOrScreenOnEvent1_16.serialize (m : ScrcpyBackOrScreenOnEvent) : List Nat :=
  [m.type % 256]

/-- `ScrcpyOptions1_16.serializeBackOrScreenOnControlMessage`: serialize
the 1.16 struct only for a key-down action; otherwise return `undefined`
(no bytes to transmit). -/
def serializeBackOrScreenOnControlMessage (m : ScrcpyBackOrScreenOnEvent) :
    Option (List Nat) :=
  if m.action = AndroidKeyEventAction.down then
    some (ScrcpyBackOrScreenOnEvent1_16.serialize m)
  else
    none

/-- `AdbSubprocess.createProtocol`'s selection loop (src/unnamed/part_000,
lines 44-60; `AdbChildProcess.createShell` repeats the same logic): walk
the candidate list in order, keep the first whose `isSupported` check
returns true, and throw a descriptive error when none does.  `supported`
abstracts the per-candidate check against the fixed adb instance. -/
def selectProtocol {α : Type} (supported : α → Bool) : List α → Except String α
  | [] => .error "No specified protocol is supported by the device"
  | c :: rest => if supported c then .ok c else selectProtocol supported rest

/-- `AdbSubprocess.createProtocol`: spawn with the selected candidate;
the selection error propagates. -/
def createProtocol {α β : Type} (supported : α → Bool) (spawn : α → β)
    (protocols : List α) : Except String β :=
  Except.map spawn (selectProtocol supported protocols)

/-- Trivial parameter set used to instantiate the parser argument in
concrete evaluations. -/
def spsZero : SequenceParameterSet := ⟨0, 0, 0, 0, 0, 0, 0, 0, 0, 0⟩

theorem selectProtocol_first {α : Type} (supported : α → Bool)
    (ps1 : List α) (c : α) (ps2 : List α)
    (h1 : ∀ x ∈ ps1, supported x = false) (hc : supported c = true) :
    selectProtocol supported (ps1 ++ c :: ps2) = .ok c := by
  induction ps1 with
  | nil => simp [selectProtocol, hc]
  | cons a t ih =>
    have ha : supported a = false := h1 a (by simp)
    simp only [List.cons_append, selectProtocol, ha, Bool.false_eq_true, if_false]
    exact ih (fun x hx => h1 x (by simp [hx]))

theorem selectProtocol_none {α : Type} (supported : α → Bool) (ps : List α)
    (h : ∀ x ∈ ps, supported x = false) :
    selectProtocol supported ps =
      .error "No specified protocol is supported by the device" := by
  induction ps with
  | nil => rfl
  | cons a t ih =>
    have ha : supported a = false := h a (by simp)
    simp only [selectProtocol, ha, Bool.false_eq_true, if_false]
    exact ih (fun x hx => h x (by simp [hx]))

theorem selectProtocol_mem {α : Type} (supported : α → Bool) (ps : List α) (c : α)
    (h : selectProtocol supported ps = .ok c) :
    c ∈ ps ∧ supported c = true := by
  induction ps with
  | nil => simp [selectProtocol] at h
  | cons a t ih =>
    by_cases ha : supported a = true
    · simp [selectProtocol, ha] at h
      subst h
      exact ⟨by simp, ha⟩
    · simp only [selectProtocol, ha, if_false] at h
      obtain ⟨hm, hs⟩ := ih h
      exact ⟨by simp [hm], hs⟩

/-- C2: in metadata mode, a frame packet pulled while the header state
holds bytes yields exactly one frame event carrying the stored header
bytes followed by the packet data and clears the header state; a frame
packet pulled with no stored header yields one frame event carrying the
packet data unmodified. -/
theorem metadataPull_frame_merge (sps : List Nat → SequenceParameterSet)
    (hd : List Nat) (p : VideoPacketRecord) (h : p.pts ≠ NoPts) :
    metadataPull sps (some hd) p = (none, [VideoStreamPacket.frame (hd ++ p.data)]) ∧
    metadataPull sps none p = (none, [VideoStreamPacket.frame p.data]) := by
  constructor <;> simp [metadataPull, h]

/-- Witness for C2 at a concrete packet with pts 0 and data [3, 4]. -/
theorem metadataPull_frame_merge_witness :
    metadataPull (fun _ => spsZero) (some [1, 2]) ⟨0, [3, 4]⟩ =
        (none, [VideoStreamPacket.frame [1, 2, 3, 4]]) ∧
    metadataPull (fun _ => spsZero) none ⟨0, [3, 4]⟩ =
        (none, [VideoStreamPacket.frame [3, 4]]) :=
  metadataPull_frame_merge (fun _ => spsZero) [1, 2] ⟨0, [3, 4]⟩ (by decide)

/-- C3: a parameter-set packet (pts = NoPts) emits exactly one
configuration event whose geometry satisfies
encodedWidth = (pic_width_in_mbs_minus1+1)*16,
encodedHeight = (pic_height_in_map_units_minus1+1)*(2-frame_mbs_only_flag)*16,
each crop field twice the parsed offset, and cropped sizes equal to the
encoded sizes minus the crops; the inputs 79, 44, 1 with zero crop yield
1280x720 encoded and cropped. -/
theorem deriveConfiguration_geometry (s : SequenceParameterSet) :
    (∀ (sps : List Nat → SequenceParameterSet) (header : Option (List Nat))
        (data : List Nat),
      metadataPull sps header ⟨NoPts, data⟩ =
        (some data, [VideoStreamPacket.configuration (deriveConfiguration (sps data))])) ∧
    (deriveConfiguration s).encodedWidth = ((s.pic_width_in_mbs_minus1 : Int) + 1) * 16 ∧
    (deriveConfiguration s).encodedHeight =
      ((s.pic_height_in_map_units_minus1 : Int) + 1) * (2 - (s.frame_mbs_only_flag : Int)) * 16 ∧
    (deriveConfiguration s).cropLeft = (s.frame_crop_left_offset : Int) * 2 ∧
    (deriveConfiguration s).cropRight = (s.frame_crop_right_offset : Int) * 2 ∧
    (deriveConfiguration s).cropTop = (s.frame_crop_top_offset : Int) * 2 ∧
    (deriveConfiguration s).cropBottom = (s.frame_crop_bottom_offset : Int) * 2 ∧
    (deriveConfiguration s).croppedWidth =
      (deriveConfiguration s).encodedWidth - (deriveConfiguration s).cropLeft -
        (deriveConfiguration s).cropRight ∧
    (deriveConfiguration s).croppedHeight =
      (deriveConfiguration s).encodedHeight - (deriveConfiguration s).cropTop -
        (deriveConfiguration s).cropBottom ∧
    deriveConfiguration ⟨0, 0, 0, 79, 44, 1, 0, 0, 0, 0⟩ =
      ⟨0, 0, 0, 1280, 720, 0, 0, 0, 0, 1280, 720⟩ := by
  refine ⟨?_, rfl, rfl, rfl, rfl, rfl, rfl, rfl, rfl, by decide⟩
  intro sps header data
  simp [metadataPull]

/-- C4: a stream-ended signal raised during record deserialization (at a
record boundary or mid-record) makes the pull close the stream: no event
is emitted for the incomplete record and no error is surfaced. -/
theorem videoStreamPull_streamEnded_closes (sps : List Nat → SequenceParameterSet)
    (header : Option (List Nat)) :
    videoStreamPull sps header VideoPacketDeserializeResult.streamEnded =
      VideoStreamPullResult.closed ∧
    (∀ (h : Option (List Nat)) (evs : List VideoStreamPacket),
      videoStreamPull sps header VideoPacketDeserializeResult.streamEnded ≠
        VideoStreamPullResult.events h evs) ∧
    videoStreamPull sps header VideoPacketDeserializeResult.streamEnded ≠
      VideoStreamPullResult.errored := by
  refine ⟨rfl, ?_, by simp [videoStreamPull]⟩
  intro h evs
  simp [videoStreamPull]

/-- C5: createConnection yields a forward connection exactly when the
stored tunnelForward value is true (reverse for false or absent), and in
both cases the connection options force control, sendDummyByte and
sendDeviceMeta to true regardless of the user control setting. -/
theorem createConnection_policy (v : ScrcpyOptionsValue1_16) :
    ScrcpyOptions1_16.createConnection v =
      (if v.tunnelForward = some true then ScrcpyConnectionKind.forward
       else ScrcpyConnectionKind.reverse,
       { control := true, sendDummyByte := true, sendDeviceMeta := true }) ∧
    ((ScrcpyOptions1_16.createConnection v).1 = ScrcpyConnectionKind.forward ↔
      v.tunnelForward = some true) := by
  by_cases hc : v.tunnelForward = some true <;>
    simp [ScrcpyOptions1_16.createConnection, hc]

/-- C6: the base-class constructor (isBase = true) rewrites a verbose
log level to debug and an Initial orientation to Unlocked while leaving
every other field unchanged; the subclass constructor (isBase = false)
stores the input entirely unchanged. -/
theorem construct_normalization (v : ScrcpyOptionsValue1_16) :
    ScrcpyOptions1_16.construct false v = v ∧
    (ScrcpyOptions1_16.construct true v).logLevel =
      (if v.logLevel = some ScrcpyLogLevel.verbose then some ScrcpyLogLevel.debug
       else v.logLevel) ∧
    (ScrcpyOptions1_16.construct true v).lockVideoOrientation =
      (if v.lockVideoOrientation = some ScrcpyScreenOrientation.initial
       then some ScrcpyScreenOrientation.unlocked
       else v.lockVideoOrientation) ∧
    (ScrcpyOptions1_16.construct true v).maxSize = v.maxSize ∧
    (ScrcpyOptions1_16.construct true v).bitRate = v.bitRate ∧
    (ScrcpyOptions1_16.construct true v).maxFps = v.maxFps ∧
    (ScrcpyOptions1_16.construct true v).tunnelForward = v.tunnelForward ∧
    (ScrcpyOptions1_16.construct true v).crop = v.crop ∧
    (ScrcpyOptions1_16.construct true v).sendFrameMeta = v.sendFrameMeta ∧
    (ScrcpyOptions1_16.construct true v).control = v.control ∧
    (ScrcpyOptions1_16.construct true v).displayId = v.displayId ∧
    (ScrcpyOptions1_16.construct true v).showTouches = v.showTouches ∧
    (ScrcpyOptions1_16.construct true v).stayAwake = v.stayAwake ∧
    (ScrcpyOptions1_16.construct true v).codecOptions = v.codecOptions ∧
    (ScrcpyOptions1_16.construct true v).encoderName = v.encoderName := by
  unfold ScrcpyOptions1_16.construct
  by_cases h1 : v.logLevel = some ScrcpyLogLevel.verbose <;>
  by_cases h2 : v.lockVideoOrientation = some ScrcpyScreenOrientation.initial <;>
    simp [h1, h2]

/-- C7: serializeBackOrScreenOnControlMessage returns a serialized buffer
only for a key-down action, and that buffer is exactly one byte equal to
the message type discriminant; for key-up it returns undefined (no
bytes), a valid do-not-transmit result rather than an error. -/
theorem serializeBackOrScreenOn_spec (m : ScrcpyBackOrScreenOnEvent) :
    (m.action = AndroidKeyEventAction.down →
      serializeBackOrScreenOnControlMessage m = some [m.type % 256] ∧
      (ScrcpyBackOrScreenOnEvent1_16.serialize m).length = 1) ∧
    (m.action = AndroidKeyEventAction.up →
      serializeBackOrScreenOnControlMessage m = none) := by
  constructor <;> intro h <;>
    simp [serializeBackOrScreenOnControlMessage,
      ScrcpyBackOrScreenOnEvent1_16.serialize, h]

/-- Witness for C7 at the concrete discriminant 4 (BackOrScreenOn). -/
theorem serializeBackOrScreenOn_spec_witness :
    (serializeBackOrScreenOnControlMessage ⟨4, AndroidKeyEventAction.down⟩ = some [4] ∧
      (ScrcpyBackOrScreenOnEvent1_16.serialize ⟨4, AndroidKeyEventAction.down⟩).length = 1) ∧
    serializeBackOrScreenOnControlMessage ⟨4, AndroidKeyEventAction.up⟩ = none :=
  ⟨(serializeBackOrScreenOn_spec ⟨4, AndroidKeyEventAction.down⟩).1 rfl,
   (serializeBackOrScreenOn_spec ⟨4, AndroidKeyEventAction.up⟩).2 rfl⟩

/-- C8: protocol selection takes the first candidate (in list order)
whose support check succeeds and spawns with it; when no candidate is
supported it fails with the descriptive error, and a successful result
always comes from a supported candidate of the given list (never an
outside fallback). -/
theorem createProtocol_first_match {α β : Type} (supported : α → Bool) (spawn : α → β) :
    (∀ (ps1 : List α) (c : α) (ps2 : List α),
        (∀ x ∈ ps1, supported x = false) → supported c = true →
        createProtocol supported spawn (ps1 ++ c :: ps2) = .ok (spawn c)) ∧
    (∀ ps : List α, (∀ x ∈ ps, supported x = false) →
        createProtocol supported spawn ps =
          .error "No specified protocol is supported by the device") ∧
    (∀ (ps : List α) (b : β), createProtocol supported spawn ps = .ok b →
        ∃ c ∈ ps, supported c = true ∧ b = spawn c) := by
  refine ⟨?_, ?_, ?_⟩
  · intro ps1 c ps2 h1 hc
    rw [createProtocol, selectProtocol_first supported ps1 c ps2 h1 hc]
    rfl
  · intro ps h
    rw [createProtocol, selectProtocol_none supported ps h]
    rfl
  · intro ps b h
    cases hsel : selectProtocol supported ps with
    | error e =>
      rw [createProtocol, hsel] at h
      simp [Except.map] at h
    | ok c =>
      rw [createProtocol, hsel] at h
      simp [Except.map] at h
      obtain ⟨hm, hs⟩ := selectProtocol_mem supported ps c hsel
      exact ⟨c, hm, hs, h.symm⟩

/-- Witness for C8 over Nat candidates: in [0, 1, 2] with support "= 1"
the first supported candidate 1 is spawned; in [0, 2] none is supported
and the descriptive error is thrown. -/
theorem createProtocol_first_match_witness :
    createProtocol (fun n : Nat => n == 1) (fun n => n + 10) [0, 1, 2] = .ok 11 ∧
    createProtocol (fun n : Nat => n == 1) (fun n => n + 10) [0, 2] =
      .error "No specified protocol is supported by the device" :=
  ⟨(createProtocol_first_match (fun n : Nat => n == 1) (fun n => n + 10)).1
      [0] 1 [2] (by decide) (by decide),
   (createProtocol_first_match (fun n : Nat => n == 1) (fun n => n + 10)).2.1
      [0, 2] (by decide)⟩

/-- C9: formatServerArguments on the empty user configuration renders
exactly the default value of every key in the fixed version order, the
empty default CodecOptions rendering as the placeholder "-". -/
theorem formatServerArguments_empty_defaults :
    ScrcpyOptions1_16.formatServerArguments emptyScrcpyOptionsValue =
      ["debug", "0", "8000000", "0", "-1", "false", "-", "true", "true", "0",
       "false", "false", "-", "-"] ∧
    CodecOptions.toOptionValue ScrcpyOptions1_16.getDefaultValue.codecOptions = none ∧
    toScrcpyOptionValue none "-" = "-" := by
  refine ⟨by decide, rfl, rfl⟩

/-- C1: the claim says a present-but-falsy user value is still emitted,
but `formatServerArguments` computes `this.value[key] || defaults[key]`,
so a present falsy value falls back to the default: with
lockVideoOrientation = Portrait (numeric value 0) and control = false
supplied, the output still shows "-1" (Unlocked, the default) at the
lockVideoOrientation position and "true" (the default) at the control
position, making Portrait and control=false impossible to request even
though the source's own enum and option interface offer them. -/
theorem formatServerArguments_falsy_user_value_ignored :
    ScrcpyOptions1_16.formatServerArguments
      { emptyScrcpyOptionsValue with
          lockVideoOrientation := some ScrcpyScreenOrientation.portrait,
          control := some false } =
      ["debug", "0", "8000000", "0", "-1", "false", "-", "true", "true", "0",
       "false", "false", "-", "-"] := by
  decide

/-- C10: parseVideoStream selects the pass-through mode exactly when the
stored sendFrameMeta value is strictly false; an absent value selects the
metadata state machine, matching the documented default of true; in
pass-through mode every chunk is wrapped verbatim as one frame event. -/
theorem parseVideoStreamMode_selection (v : ScrcpyOptionsValue1_16) :
    (parseVideoStreamMode v = VideoStreamMode.passThrough ↔
      v.sendFrameMeta = some false) ∧
    parseVideoStreamMode { v with sendFrameMeta := none } = VideoStreamMode.metadata ∧
    ScrcpyOptions1_16.getDefaultValue.sendFrameMeta = true ∧
    (∀ chunk : List Nat, passThroughTransform chunk = [VideoStreamPacket.frame chunk]) := by
  refine ⟨?_, by simp [parseVideoStreamMode], rfl, fun chunk => rfl⟩
  by_cases h : v.sendFrameMeta = some false <;> simp [parseVideoStreamMode, h]

/-- Witness for C3: the example parameter set 79, 44, 1 with zero crop. -/
theorem deriveConfiguration_geometry_witness :
    deriveConfiguration ⟨0, 0, 0, 79, 44, 1, 0, 0, 0, 0⟩ =
      ⟨0, 0, 0, 1280, 720, 0, 0, 0, 0, 1280, 720⟩ :=
  (deriveConfiguration_geometry spsZero).2.2.2.2.2.2.2.2.2

/-- Witness for C4 at a concrete decoder state. -/
theorem videoStreamPull_streamEnded_closes_witness :
    videoStreamPull (fun _ => spsZero) none
        VideoPacketDeserializeResult.streamEnded =
      VideoStreamPullResult.closed :=
  (videoStreamPull_streamEnded_closes (fun _ => spsZero) none).1

/-- Witness for C5 at the empty configuration (tunnelForward absent). -/
theorem createConnection_policy_witness :
    ScrcpyOptions1_16.createConnection emptyScrcpyOptionsValue =
      (ScrcpyConnectionKind.reverse,
       { control := true, sendDummyByte := true, sendDeviceMeta := true }) :=
  (createConnection_policy emptyScrcpyOptionsValue).1

/-- A concrete input exercising both base-class normalizations. -/
def sampleOptionsValue : ScrcpyOptionsValue1_16 :=
  { emptyScrcpyOptionsValue with
      logLevel := some ScrcpyLogLevel.verbose,
      lockVideoOrientation := some ScrcpyScreenOrientation.initial }

/-- Witness for C6 at a value holding verbose and Initial. -/
theorem construct_normalization_witness :
    (ScrcpyOptions1_16.construct true sampleOptionsValue).logLevel =
      some ScrcpyLogLevel.debug ∧
    (ScrcpyOptions1_16.construct true sampleOptionsValue).lockVideoOrientation =
      some ScrcpyScreenOrientation.unlocked ∧
    ScrcpyOptions1_16.construct false sampleOptionsValue = sampleOptionsValue := by
  obtain ⟨h0, h1, h2, _⟩ := construct_normalization sampleOptionsValue
  exact ⟨by rw [h1]; decide, by rw [h2]; decide, h0⟩

/-- Witness for C10: sendFrameMeta strictly false selects pass-through,
the empty configuration selects the metadata machine. -/
theorem parseVideoStreamMode_selection_witness :
    parseVideoStreamMode
        { emptyScrcpyOptionsValue with sendFrameMeta := some false } =
      VideoStreamMode.passThrough ∧
    parseVideoStreamMode emptyScrcpyOptionsValue = VideoStreamMode.metadata :=
  ⟨(parseVideoStreamMode_selection
      { emptyScrcpyOptionsValue with sendFrameMeta := some false }).1.mpr rfl,
   (parseVideoStreamMode_selection emptyScrcpyOptionsValue).2.1⟩
